import Mathlib

/-!
Verification of the arithmetic/utility module of the C project template.

The repository ships the public header `src/include/example.h` (declaring
`add`, `multiply`, `is_even`), a demo program `src/src/main.c`, and a test
suite `src/test/test_example.c`.  The implementation file with the function
bodies, and the `get_greeting` accessor described by the specification, are
not present under `src/`; those are modelled from the spec as marked below.

C `int` is modelled as the mathematical integers with two's-complement
wraparound into the 32-bit range `[-2^31, 2^31)` wherever overflow matters.
-/

namespace CTemplate

/-- The 32-bit two's-complement range of a C `int`. -/
def inInt32 (x : Int) : Prop := -2147483648 ≤ x ∧ x < 2147483648

instance (x : Int) : Decidable (inInt32 x) := by
  unfold inInt32; infer_instance

/-- Two's-complement wraparound of an integer into the 32-bit range,
modelling the host platform's native signed-integer overflow semantics. -/
def wrap32 (x : Int) : Int := (x + 2147483648) % 4294967296 - 2147483648

/-- Modelled from the spec: the body of `add` is absent from `src/` (only the
declaration in `src/include/example.h` and its tests are present).  Spec:
"inputs: two signed integers. Result: their sum ... overflow behavior is
implementation-defined (matches native signed-integer overflow semantics of
the host platform)". -/
def add (a b : Int) : Int := wrap32 (a + b)

/-- Modelled from the spec: the body of `multiply` is absent from `src/`.
Spec: "inputs: two signed integers. Result: their product. Same overflow
caveat as above." -/
def multiply (a b : Int) : Int := wrap32 (a * b)

/-- Modelled from the spec: the body of `is_even` is absent from `src/`.
Header doc: "@return 1 if even, 0 if odd"; spec: "a boolean indicating
whether `n` is divisible by two with zero remainder".  C's `%` is truncated
remainder, modelled by `Int.tmod`. -/
def is_even (n : Int) : Int := if Int.tmod n 2 = 0 then 1 else 0

/-- Modelled from the spec: `get_greeting` appears nowhere under `src/`.
Spec: "no inputs. Result: a fixed, immutable string constant:
`"Hello from C project template!"`". -/
def get_greeting : String := "Hello from C project template!"

/-! ## Demo program (`src/src/main.c`) -/

/-- The operations of the module, for recording which ones the demo invokes. -/
inductive Op where
  | add
  | multiply
  | is_even
  | get_greeting
deriving DecidableEq

/-- The module operations invoked by `main` in `src/src/main.c`, in call
order: `add(a,b)`, `multiply(a,b)`, `is_even(a)`, `is_even(b)`. -/
def mainOps : List Op := [Op.add, Op.multiply, Op.is_even, Op.is_even]

/-- C's `cond ? "true" : "false"` on an `int`: nonzero is truthy. -/
def boolStr (v : Int) : String := if v = 0 then "false" else "true"

/-- The lines printed by `main` in `src/src/main.c`, with `%d` rendered as
decimal, paired with the exit code (`return 0`). -/
def mainDemo : List String × Int :=
  let a : Int := 5
  let b : Int := 3
  (["C Project Template Example",
    "=========================",
    "a = " ++ toString a ++ ", b = " ++ toString b,
    "add(" ++ toString a ++ ", " ++ toString b ++ ") = " ++ toString (add a b),
    "multiply(" ++ toString a ++ ", " ++ toString b ++ ") = "
      ++ toString (multiply a b),
    "is_even(" ++ toString a ++ ") = " ++ boolStr (is_even a),
    "is_even(" ++ toString b ++ ") = " ++ boolStr (is_even b)],
   0)

/-! ## Test suite (`src/test/test_example.c`) -/

/-- The assertions of `test_add`, in source order. -/
def test_add : List Bool :=
  [add 2 3 == 5, add (-1) 1 == 0, add 0 0 == 0, add (-5) (-3) == -8]

/-- The assertions of `test_multiply`, in source order. -/
def test_multiply : List Bool :=
  [multiply 2 3 == 6, multiply (-1) 1 == -1, multiply 0 5 == 0,
   multiply (-2) (-3) == 6]

/-- The assertions of `test_is_even`, in source order. -/
def test_is_even : List Bool :=
  [is_even 2 == 1, is_even 3 == 0, is_even 0 == 1, is_even (-2) == 1,
   is_even (-3) == 0]

/-- All assertions run by the suite (the three test cases of `tc_core`). -/
def suiteAssertions : List Bool := test_add ++ test_multiply ++ test_is_even

/-- The exit code computed by the test runner's `main`:
`number_failed` is the count of failed assertions, and the program returns
`EXIT_SUCCESS` (0) when it is zero, `EXIT_FAILURE` (1) otherwise. -/
def suiteExit (asserts : List Bool) : Int :=
  if (asserts.filter (fun a => !a)).length == 0 then 0 else 1

/-- The exit code of the test-suite program on its actual assertions. -/
def testMain : Int := suiteExit suiteAssertions

/-! ## Basic lemmas -/

lemma wrap32_eq_of_inInt32 {x : Int} (h : inInt32 x) : wrap32 x = x := by
  unfold inInt32 at h
  unfold wrap32
  omega

lemma wrap32_emod_two (x : Int) : wrap32 x % 2 = x % 2 := by
  unfold wrap32
  omega

lemma is_even_eq_one_iff (n : Int) : is_even n = 1 ↔ 2 ∣ n := by
  unfold is_even
  split
  · rename_i hc
    exact iff_of_true rfl (Int.dvd_of_tmod_eq_zero hc)
  · rename_i hc
    exact iff_of_false (by norm_num) (fun hd => hc (Int.tmod_eq_zero_of_dvd hd))

lemma is_even_eq_zero_iff (n : Int) : is_even n = 0 ↔ ¬ (2 ∣ n) := by
  unfold is_even
  split
  · rename_i hc
    exact iff_of_false (by norm_num) (fun hd => hd (Int.dvd_of_tmod_eq_zero hc))
  · rename_i hc
    exact iff_of_true rfl (fun hd => hc (Int.tmod_eq_zero_of_dvd hd))

lemma is_even_congr {m n : Int} (h : (2:Int) ∣ m ↔ 2 ∣ n) :
    is_even m = is_even n := by
  by_cases hm : (2:Int) ∣ m
  · rw [(is_even_eq_one_iff m).mpr hm, (is_even_eq_one_iff n).mpr (h.mp hm)]
  · rw [(is_even_eq_zero_iff m).mpr hm,
      (is_even_eq_zero_iff n).mpr (fun hd => hm (h.mpr hd))]

lemma dvd_two_wrap32 (x : Int) : (2:Int) ∣ wrap32 x ↔ 2 ∣ x := by
  unfold wrap32
  omega

/-! ## Claim theorems -/

/-- C1: for every signed integer `n`, `is_even n` returns true (= 1) exactly
when `n` is divisible by two with zero remainder; in particular
`is_even (-2) = 1`, `is_even (-3) = 0` and `is_even 0 = 1`. -/
theorem is_even_divisibility :
    (∀ n : Int, is_even n = 1 ↔ 2 ∣ n) ∧
    is_even (-2) = 1 ∧ is_even (-3) = 0 ∧ is_even 0 = 1 :=
  ⟨is_even_eq_one_iff, by decide, by decide, by decide⟩

/-- C2: `add a b` returns the sum of `a` and `b` whenever that sum fits in
the 32-bit `int` range (overflow wraps with the platform's two's-complement
semantics, never an error); in particular `add 2 3 = 5` and
`add (-5) (-3) = -8`. -/
theorem add_is_sum (a b : Int) (h : inInt32 (a + b)) :
    add a b = a + b ∧ add 2 3 = 5 ∧ add (-5) (-3) = -8 :=
  ⟨wrap32_eq_of_inInt32 h, by decide, by decide⟩

/-- Witness for C2 at `a = 2`, `b = 3`. -/
theorem add_is_sum_witness : inInt32 ((2:Int) + 3) ∧ add 2 3 = 2 + 3 :=
  ⟨by decide, (add_is_sum 2 3 (by decide)).1⟩

/-- C3: `multiply a b` returns the product of `a` and `b` whenever that
product fits in the 32-bit `int` range (same overflow caveat as `add`); in
particular `multiply (-2) (-3) = 6` and `multiply 0 5 = 0`. -/
theorem multiply_is_product (a b : Int) (h : inInt32 (a * b)) :
    multiply a b = a * b ∧ multiply (-2) (-3) = 6 ∧ multiply 0 5 = 0 :=
  ⟨wrap32_eq_of_inInt32 h, by decide, by decide⟩

/-- Witness for C3 at `a = -2`, `b = -3`. -/
theorem multiply_is_product_witness :
    inInt32 ((-2:Int) * -3) ∧ multiply (-2) (-3) = (-2) * (-3) :=
  ⟨by decide, (multiply_is_product (-2) (-3) (by decide)).1⟩

/-- C4: `get_greeting` takes no inputs and returns the fixed string constant
"Hello from C project template!". -/
theorem get_greeting_value :
    get_greeting = "Hello from C project template!" := rfl

/-- C5: addition as implemented is commutative for all signed integers. -/
theorem add_commutative : ∀ a b : Int, add a b = add b a := by
  intro a b
  unfold add
  rw [Int.add_comm]

/-- C6: multiplication as implemented is commutative for all signed
integers. -/
theorem multiply_commutative : ∀ a b : Int, multiply a b = multiply b a := by
  intro a b
  unfold multiply
  rw [Int.mul_comm]

/-- C7: for every signed integer `n`, `is_even n` agrees with `is_even (-n)`,
both for exact negation and for negation that wraps around at the extreme of
the 32-bit range. -/
theorem is_even_negation :
    ∀ n : Int, is_even n = is_even (-n) ∧ is_even n = is_even (wrap32 (-n)) := by
  intro n
  constructor
  · exact is_even_congr (Int.dvd_neg).symm
  · exact is_even_congr ((dvd_two_wrap32 (-n)).trans Int.dvd_neg).symm

/-- C8 counterexample: the demo program of `src/src/main.c` never invokes
`get_greeting`, and its greeting string appears nowhere in the printed
report, refuting the claim that the demo uses all four operations. -/
theorem main_omits_get_greeting :
    Op.get_greeting ∉ mainOps ∧ ∀ l ∈ mainDemo.1, l ≠ get_greeting := by
  decide

/-- C8 amended: the demo program prints a fixed textual report to standard
output using the operations `add`, `multiply` and `is_even` (but not
`get_greeting`) and always terminates with exit code 0. -/
theorem main_report_fixed :
    mainDemo.2 = 0 ∧
    mainOps = [Op.add, Op.multiply, Op.is_even, Op.is_even] ∧
    mainDemo.1 =
      ["C Project Template Example",
       "=========================",
       "a = 5, b = 3",
       "add(5, 3) = 8",
       "multiply(5, 3) = 15",
       "is_even(5) = false",
       "is_even(3) = false"] := by
  refine ⟨rfl, rfl, ?_⟩
  decide

/-- C9: the test-suite program exits with code 0 exactly when every
assertion passes (and nonzero otherwise); on the actual suite all
assertions pass, so it exits 0. -/
theorem suite_exit_iff_all_pass :
    (∀ asserts : List Bool, suiteExit asserts = 0 ↔ ∀ a ∈ asserts, a = true) ∧
    testMain = 0 := by
  constructor
  · intro asserts
    unfold suiteExit
    split
    · rename_i h
      simp only [beq_iff_eq, List.length_eq_zero, List.filter_eq_nil_iff] at h
      exact iff_of_true rfl (by simpa using h)
    · rename_i h
      simp only [beq_iff_eq, List.length_eq_zero, List.filter_eq_nil_iff] at h
      exact iff_of_false (by norm_num) (fun hall => h (by simpa using hall))
  · decide

/-- C10: `is_even` returns exactly 1 or exactly 0 for every signed integer,
never any other value. -/
theorem is_even_zero_or_one : ∀ n : Int, is_even n = 1 ∨ is_even n = 0 := by
  intro n
  unfold is_even
  split
  · exact Or.inl rfl
  · exact Or.inr rfl

end CTemplate
